import Mathlib

/-!
Shallow embedding of the GitHub fetch pipeline of the commit-clock widget
(src/main.rs): the fetch worker cascade in spawn_github_fetch and the
trigger/poll scheduling logic of the main render loop.

Modelling conventions:
* An HTTP call is modelled by the observable cases the code distinguishes:
  a transport error or a non-2xx status (handled identically by the code),
  a failure of into_string when reading the body, and a successfully read
  body.  A body is either JSON that parses or a malformed body; the code
  maps a malformed body to serde Value Null via unwrap_or_else.
* serde Value is modelled by an inductive Json; get on a non-object and a
  missing key both give none, matching serde.
* Machine timestamps are Int seconds (chrono timestamp()).
* The mpsc receiver slot github_rx is modelled by fetch_in_flight
  (rx.is_some()); spawning a worker is the Bool component of the trigger
  results, and the network calls of a cycle happen only inside the worker,
  so a trigger returning false performs zero network calls (the trigger
  functions do not even take the remote environment).
-/

/-- A pull-request record shown in the widget: GithubPr in the source. -/
structure GithubPr where
  title : String
  url : String
deriving DecidableEq, Repr

/-- The outcome of one fetch cycle: GithubFetchResult in the source. -/
structure GithubFetchResult where
  connected : Bool
  prs : List GithubPr
deriving DecidableEq, Repr

/-- Model of a serde JSON value, restricted to what the code inspects. -/
inductive Json where
  | null : Json
  | str : String → Json
  | arr : List Json → Json
  | obj : List (String × Json) → Json

/-- Value.get(key): on an object, look the key up; otherwise none. -/
def Json.get (j : Json) (key : String) : Option Json :=
  match j with
  | .obj fields => fields.lookup key
  | _ => none

/-- Value.as_str. -/
def Json.asStr (j : Json) : Option String :=
  match j with
  | .str s => some s
  | _ => none

/-- Value.as_array. -/
def Json.asArray (j : Json) : Option (List Json) :=
  match j with
  | .arr xs => some xs
  | _ => none

/-- A successfully read response body: JSON text that parses, or not. -/
inductive Body where
  | malformed : Body
  | json : Json → Body

/-- serde_json::from_str(body).unwrap_or_else(Null): a malformed body
parses to Value Null. -/
def parseBody : Body → Json
  | .malformed => Json.null
  | .json j => j

/-- The observable result of one HTTP request, as the code branches on it:
failure covers both a transport error and a non-2xx status (the code
treats them identically); readError is into_string failing. -/
inductive HttpResult where
  | failure : HttpResult
  | readError : HttpResult
  | success : Body → HttpResult

/-- The remote responses one fetch cycle can observe: one identity lookup,
one search, one repository listing, and one pull listing per repository
full name. -/
structure RemoteEnv where
  userResp : HttpResult
  searchResp : HttpResult
  reposResp : HttpResult
  pullsResp : String → HttpResult

/-- Stage 1 (identify): the three early returns of the code (call failed or
non-2xx, body read failed, login field absent or not a string) all send
connected false with no items, so they collapse to none; some login is the
successful extraction of user_json login. -/
def identityStage (r : HttpResult) : Option String :=
  match r with
  | .failure => none
  | .readError => none
  | .success b => ((parseBody b).get "login").bind Json.asStr

/-- One search item: kept only when both title and html_url are present
strings (the filter_map closure with the question-mark operator). -/
def parseSearchItem (item : Json) : Option GithubPr :=
  match (item.get "title").bind Json.asStr with
  | none => none
  | some title =>
    match (item.get "html_url").bind Json.asStr with
    | none => none
    | some url => some { title := title, url := url }

/-- Extraction of the search results from the parsed body: get items,
as_array, filter_map then take 3, with unwrap_or_default on any miss. -/
def searchItems (j : Json) : List GithubPr :=
  match (j.get "items").bind Json.asArray with
  | none => []
  | some items => (items.filterMap parseSearchItem).take 3

/-- Stage 2 (search): none is the terminal connected-true-empty return
(call failed, non-2xx, or body read failed); a successfully read body is
parsed, a malformed one becoming Null and hence zero items. -/
def searchStage (r : HttpResult) : Option (List GithubPr) :=
  match r with
  | .failure => none
  | .readError => none
  | .success b => some (searchItems (parseBody b))

/-- Extraction of repository full names: as_array, filter_map full_name,
take 20, unwrap_or_default. -/
def extractRepos (j : Json) : List String :=
  match j.asArray with
  | none => []
  | some items => (items.filterMap (fun item => (item.get "full_name").bind Json.asStr)).take 20

/-- Stage 3 (repository listing): a call failure or non-2xx is the terminal
connected-true-empty return (none); unlike the search stage, a body read
failure here proceeds with Value Null (hence zero repositories). -/
def reposStage (r : HttpResult) : Option (List String) :=
  match r with
  | .failure => none
  | .readError => some (extractRepos Json.null)
  | .success b => some (extractRepos (parseBody b))

/-- user.login of a pull entry, defaulted to the empty string. -/
def authorOf (pr : Json) : String :=
  (((pr.get "user").bind (fun u => u.get "login")).bind Json.asStr).getD ""

/-- title of a pull entry, defaulted to the empty string. -/
def titleOf (pr : Json) : String :=
  ((pr.get "title").bind Json.asStr).getD ""

/-- html_url of a pull entry, defaulted to the empty string. -/
def urlOf (pr : Json) : String :=
  ((pr.get "html_url").bind Json.asStr).getD ""

/-- updated_at of a pull entry, defaulted to the empty string. -/
def updatedOf (pr : Json) : String :=
  ((pr.get "updated_at").bind Json.asStr).getD ""

/-- The body of the per-pull loop: keep the record exactly when the
defaulted author equals login, carrying the defaulted updated_at key. -/
def processPull (login : String) (pr : Json) : Option (String × GithubPr) :=
  if authorOf pr = login then
    some (updatedOf pr, { title := titleOf pr, url := urlOf pr })
  else none

/-- Stage 4, one repository: a call failure or non-2xx is skipped
(continue); a body read failure or a malformed or non-array body parses to
something as_array rejects, also skipped; an array contributes its
author-matching records in order. -/
def pullsForRepo (login : String) (r : HttpResult) : List (String × GithubPr) :=
  match r with
  | .failure => []
  | .readError => []
  | .success b =>
    match (parseBody b).asArray with
    | none => []
    | some pulls => pulls.filterMap (processPull login)

/-- Whether a per-repository pull query failed in any of the ways the code
skips: transport or non-2xx, body read failure, or a body that does not
parse to an array. -/
def repoQueryFailed (r : HttpResult) : Bool :=
  match r with
  | .failure => true
  | .readError => true
  | .success b => ((parseBody b).asArray).isNone

/-- All author-matching records accumulated across the listed repositories
in order (the matches vector). -/
def mergedMatches (login : String) (pullsFn : String → HttpResult) (repos : List String) :
    List (String × GithubPr) :=
  repos.flatMap (fun repo => pullsForRepo login (pullsFn repo))

/-- Lexicographic comparison of character lists: the order Rust str cmp
induces (byte-wise on UTF-8, which agrees with codepoint-wise order). -/
def strLeB : List Char → List Char → Bool
  | [], _ => true
  | _ :: _, [] => false
  | x :: xs, y :: ys =>
    if x < y then true
    else if y < x then false
    else strLeB xs ys

/-- Rust string less-or-equal, on the character data of the strings. -/
def strLe (a b : String) : Bool := strLeB a.data b.data

/-- Auxiliary proof term: strLeB is reflexive. -/
def strLeB_refl : ∀ xs, strLeB xs xs = true
  | [] => rfl
  | x :: xs => by simp [strLeB, strLeB_refl xs]

/-- Auxiliary proof term: strLeB is total. -/
def strLeB_total : ∀ xs ys, strLeB xs ys = true ∨ strLeB ys xs = true
  | [], _ => Or.inl rfl
  | _ :: _, [] => Or.inr rfl
  | x :: xs, y :: ys => by
    rcases lt_trichotomy x y with h | h | h
    · left; simp [strLeB, h]
    · subst h
      rcases strLeB_total xs ys with h2 | h2
      · left; simp [strLeB, h2]
      · right; simp [strLeB, h2]
    · right; simp [strLeB, h]

/-- Auxiliary proof term: strLeB is transitive. -/
def strLeB_trans : ∀ xs ys zs, strLeB xs ys = true → strLeB ys zs = true →
    strLeB xs zs = true
  | [], _, _, _, _ => rfl
  | _ :: _, [], _, h1, _ => by simp [strLeB] at h1
  | _ :: _, _ :: _, [], _, h2 => by simp [strLeB] at h2
  | x :: xs, y :: ys, z :: zs, h1, h2 => by
    rcases lt_trichotomy x y with hxy | hxy | hxy
    · rcases lt_trichotomy y z with hyz | hyz | hyz
      · simp [strLeB, lt_trans hxy hyz]
      · subst hyz; simp [strLeB, hxy]
      · exfalso; simp [strLeB, hyz, not_lt_of_gt hyz] at h2
    · subst hxy
      rcases lt_trichotomy x z with hyz | hyz | hyz
      · simp [strLeB, hyz]
      · subst hyz
        simp [strLeB, lt_irrefl] at h1 h2 ⊢
        exact strLeB_trans _ _ _ h1 h2
      · exfalso; simp [strLeB, hyz, not_lt_of_gt hyz] at h2
    · exfalso; simp [strLeB, hxy, not_lt_of_gt hxy] at h1

/-- The ordering of matches.sort_by with comparator b.0 cmp a.0:
descending by the updated_at string. -/
def matchLE (a b : String × GithubPr) : Prop := strLe b.1 a.1 = true

instance : DecidableRel matchLE :=
  fun a b => inferInstanceAs (Decidable (strLe b.1 a.1 = true))

instance : IsTotal (String × GithubPr) matchLE :=
  ⟨fun a b => (strLeB_total b.1.data a.1.data).imp id id⟩

instance : IsTrans (String × GithubPr) matchLE :=
  ⟨fun _ _ _ hab hbc => strLeB_trans _ _ _ hbc hab⟩

/-- Auxiliary proof term: matchLE is reflexive. -/
def matchLE_refl (a : String × GithubPr) : matchLE a a :=
  strLeB_refl a.1.data

/-- matches.sort_by with comparator b.0 cmp a.0: a stable sort, descending
by the updated_at string; embedded as the stable insertion sort under
matchLE, which computes the same list (the unique stable descending
rearrangement). -/
def sortMatches (l : List (String × GithubPr)) : List (String × GithubPr) :=
  List.insertionSort matchLE l

/-- The fallback tail of the cascade, entered when the search yielded zero
items: list repositories, accumulate author-matching pulls, stable-sort
descending by updated_at, keep the first 3; connected is true on every
path here. -/
def fallbackStage (env : RemoteEnv) (login : String) : GithubFetchResult :=
  match reposStage env.reposResp with
  | none => { connected := true, prs := [] }
  | some repos =>
    { connected := true,
      prs := ((sortMatches (mergedMatches login env.pullsResp repos)).map Prod.snd).take 3 }

/-- The whole worker cascade of spawn_github_fetch, as the single
GithubFetchResult it sends on its channel. -/
def spawn_github_fetch (env : RemoteEnv) : GithubFetchResult :=
  match identityStage env.userResp with
  | none => { connected := false, prs := [] }
  | some login =>
    match searchStage env.searchResp with
    | none => { connected := true, prs := [] }
    | some prs =>
      if prs.isEmpty then fallbackStage env login
      else { connected := true, prs := prs }

/-- The connection state the presenter renders. -/
inductive ConnectionStatus where
  | Unknown : ConnectionStatus
  | Connected : ConnectionStatus
  | Disconnected : ConnectionStatus
deriving DecidableEq, Repr

/-- The scheduler-owned mutable state of the render loop: github_last_fetch,
whether github_rx is Some (a fetch is in flight), and the presenter-visible
github_status and github_prs. -/
structure SchedulerState where
  github_last_fetch : Int
  fetch_in_flight : Bool
  github_status : ConnectionStatus
  github_prs : List GithubPr
deriving DecidableEq, Repr

/-- The once-per-frame periodic trigger check of the render loop: fires only
when 300 seconds have elapsed since github_last_fetch and no fetch is in
flight; it then advances github_last_fetch to now and either spawns a worker
(credential present: status Unknown, in flight) or immediately shows the
disconnected state (credential absent: status Disconnected, items cleared,
no worker).  The Bool is whether a worker was spawned. -/
def maybe_trigger (s : SchedulerState) (now : Int) (token : Option String) :
    SchedulerState × Bool :=
  if now - s.github_last_fetch ≥ 300 ∧ s.fetch_in_flight = false then
    match token with
    | some _ =>
      ({ s with github_last_fetch := now, github_status := .Unknown,
                fetch_in_flight := true }, true)
    | none =>
      ({ s with github_last_fetch := now, github_status := .Disconnected,
                github_prs := [] }, false)
  else (s, false)

/-- The manual trigger: the button-click branch of the render loop.  It
reloads the token (here a parameter), and with a token present it spawns a
worker unconditionally, overwriting github_rx; with no token it shows the
disconnected state.  It never reads or writes github_last_fetch and never
consults fetch_in_flight. -/
def trigger_now (s : SchedulerState) (token : Option String) :
    SchedulerState × Bool :=
  match token with
  | some _ => ({ s with github_status := .Unknown, fetch_in_flight := true }, true)
  | none => ({ s with github_status := .Disconnected, github_prs := [] }, false)

/-- Consuming a worker result from the channel (the try_recv Ok branch):
status becomes Connected or Disconnected by the connected flag, the item
list is replaced wholesale, and github_rx is dropped. -/
def consume_result (s : SchedulerState) (r : GithubFetchResult) : SchedulerState :=
  { s with
    github_status := if r.connected then .Connected else .Disconnected,
    github_prs := r.prs,
    fetch_in_flight := false }

/-- The state at entry to the render loop: github_last_fetch is initialised
to 360 seconds before startup, no fetch in flight, status Unknown, no
items. -/
def initial_scheduler_state (startup : Int) : SchedulerState :=
  { github_last_fetch := startup - 360, fetch_in_flight := false,
    github_status := .Unknown, github_prs := [] }

/-- out is the stable descending-by-key rearrangement of l: it is sorted
under matchLE and, key by key, lists exactly the records of l with that
updated_at key in their original encounter order.  (The two conditions
force out to be a permutation of l and pin the order of equal keys.) -/
def IsStableDescSortOf (l out : List (String × GithubPr)) : Prop :=
  List.Sorted matchLE out ∧
  ∀ k : String, out.filter (fun x => x.1 == k) = l.filter (fun x => x.1 == k)

/-- A pull-request entry of the pulls endpoint, all four fields present. -/
def mkPull (author title url updated : String) : Json :=
  Json.obj [("user", Json.obj [("login", Json.str author)]),
            ("title", Json.str title), ("html_url", Json.str url),
            ("updated_at", Json.str updated)]

/-- Concrete remote responses: identity resolves to login me, the search
succeeds with zero items, two accessible repositories, repository octo/r1
contributing two matching pulls (updated 2024-01-03 and 2024-01-01) and
octo/r2 one (updated 2024-01-02). -/
def envExample : RemoteEnv :=
  { userResp := .success (.json (.obj [("login", .str "me")])),
    searchResp := .success (.json (.obj [("items", .arr [])])),
    reposResp := .success (.json (.arr [.obj [("full_name", .str "octo/r1")],
                                        .obj [("full_name", .str "octo/r2")]])),
    pullsResp := fun repo =>
      if repo = "octo/r1" then
        .success (.json (.arr [mkPull "me" "R1a" "u13" "2024-01-03T00:00:00Z",
                               mkPull "me" "R1b" "u01" "2024-01-01T00:00:00Z"]))
      else if repo = "octo/r2" then
        .success (.json (.arr [mkPull "me" "R2a" "u02" "2024-01-02T00:00:00Z"]))
      else .failure }

/-- Concrete remote responses: like envExample but the search response body
is read successfully yet does not parse as JSON. -/
def envMalformedSearch : RemoteEnv :=
  { envExample with searchResp := .success .malformed }

/-- Concrete remote responses: like envExample but the pull query of
repository octo/r2 fails with a transport error or non-2xx status. -/
def envRepoFail : RemoteEnv :=
  { envExample with
    pullsResp := fun repo =>
      if repo = "octo/r1" then
        .success (.json (.arr [mkPull "me" "R1a" "u13" "2024-01-03T00:00:00Z",
                               mkPull "me" "R1b" "u01" "2024-01-01T00:00:00Z"]))
      else .failure }

/-- Concrete remote responses: every request fails. -/
def envAllFail : RemoteEnv :=
  { userResp := .failure, searchResp := .failure, reposResp := .failure,
    pullsResp := fun _ => .failure }

/-- A search item carrying an html_url but no title. -/
def itemNoTitle : Json := Json.obj [("html_url", Json.str "u")]

/-- A pull entry carrying only its author, with title, html_url and
updated_at all absent. -/
def prBare : Json := Json.obj [("user", Json.obj [("login", Json.str "me")])]

/-! ## Theorems -/

/-- Helper: anything the search stage successfully yields has at most 3
items. -/
theorem searchStage_length (r : HttpResult) (prs : List GithubPr)
    (h : searchStage r = some prs) : prs.length ≤ 3 := by
  cases r with
  | failure => simp [searchStage] at h
  | readError => simp [searchStage] at h
  | success b =>
    simp only [searchStage, Option.some.injEq] at h
    subst h
    unfold searchItems
    cases ((parseBody b).get "items").bind Json.asArray with
    | none => simp
    | some items => exact List.length_take_le 3 _

/-- Claim C4: every outcome the fetch worker can produce with connected
false has an empty item list. -/
theorem disconnected_implies_no_items (env : RemoteEnv)
    (h : (spawn_github_fetch env).connected = false) :
    (spawn_github_fetch env).prs = [] := by
  rcases hid : identityStage env.userResp with _ | login
  · simp [spawn_github_fetch, hid]
  · rcases hs : searchStage env.searchResp with _ | prs
    · simp [spawn_github_fetch, hid, hs] at h
    · by_cases hp : prs.isEmpty
      · rcases hr : reposStage env.reposResp with _ | repos
        · simp [spawn_github_fetch, fallbackStage, hid, hs, hp, hr] at h
        · simp [spawn_github_fetch, fallbackStage, hid, hs, hp, hr] at h
      · simp [spawn_github_fetch, hid, hs, hp] at h

/-- Claim C4 witness: with every request failing, the outcome is
disconnected and the item list is empty. -/
theorem disconnected_implies_no_items_witness :
    (spawn_github_fetch envAllFail).connected = false ∧
    (spawn_github_fetch envAllFail).prs = [] :=
  ⟨rfl, disconnected_implies_no_items envAllFail rfl⟩

/-- Claim C5: every outcome the fetch worker can produce carries at most 3
items, whatever the remote responses. -/
theorem items_length_le_three (env : RemoteEnv) :
    (spawn_github_fetch env).prs.length ≤ 3 := by
  rcases hid : identityStage env.userResp with _ | login
  · simp [spawn_github_fetch, hid]
  · rcases hs : searchStage env.searchResp with _ | prs
    · simp [spawn_github_fetch, hid, hs]
    · by_cases hp : prs.isEmpty
      · rcases hr : reposStage env.reposResp with _ | repos
        · simp [spawn_github_fetch, fallbackStage, hid, hs, hp, hr]
        · simp only [spawn_github_fetch, fallbackStage, hid, hs, hp, hr, if_true]
          exact List.length_take_le 3 _
      · simp only [spawn_github_fetch, hid, hs, hp, if_false, Bool.false_eq_true,
          ite_false]
        exact searchStage_length _ _ hs

/-- Claim C1 (amended): while a fetch is in flight the periodic trigger is
a no-op (state unchanged, no worker started), but the manual trigger does
not consult fetch_in_flight: with a credential present it always starts a
fresh worker, setting the status to Unknown and overwriting the in-flight
receiver, so a second worker can run concurrently with the first. -/
theorem periodic_noop_manual_spawns_in_flight (s : SchedulerState) (now : Int)
    (token : Option String) (cred : String) (h : s.fetch_in_flight = true) :
    maybe_trigger s now token = (s, false) ∧
    trigger_now s (some cred)
      = ({ s with github_status := .Unknown, fetch_in_flight := true }, true) := by
  constructor
  · unfold maybe_trigger
    rw [if_neg]
    rintro ⟨-, h2⟩
    rw [h] at h2
    exact absurd h2 (by decide)
  · rfl

/-- Claim C1 witness: a concrete in-flight state where the periodic trigger
is a no-op and the manual trigger starts a worker. -/
theorem periodic_noop_manual_spawns_in_flight_witness :
    (⟨0, true, .Connected, []⟩ : SchedulerState).fetch_in_flight = true ∧
    maybe_trigger ⟨0, true, .Connected, []⟩ 1000 (some "tok")
      = (⟨0, true, .Connected, []⟩, false) ∧
    trigger_now ⟨0, true, .Connected, []⟩ (some "tok")
      = (⟨0, true, .Unknown, []⟩, true) := by
  have h := periodic_noop_manual_spawns_in_flight
    ⟨0, true, .Connected, []⟩ 1000 (some "tok") "tok" rfl
  exact ⟨rfl, h.1, h.2.trans rfl⟩

/-- Claim C1 counterexample: a manual trigger issued while a fetch is in
flight is not a no-op — a new worker is started and the scheduler state
changes. -/
theorem manual_trigger_in_flight_not_noop_cex :
    (⟨0, true, .Connected, []⟩ : SchedulerState).fetch_in_flight = true ∧
    (trigger_now ⟨0, true, .Connected, []⟩ (some "tok")).2 = true ∧
    (trigger_now ⟨0, true, .Connected, []⟩ (some "tok")).1
      ≠ (⟨0, true, .Connected, []⟩ : SchedulerState) := by
  refine ⟨rfl, rfl, ?_⟩
  decide

/-- Claim C2 (amended): when the periodic check changes last_trigger_time
at all, at least 300 seconds have passed since the previous trigger time
and the field becomes now, so automatic triggers are spaced 300 seconds
apart; the manual trigger however never touches last_trigger_time. -/
theorem auto_spacing_manual_no_update (s : SchedulerState) (now : Int)
    (token cred : Option String)
    (h : (maybe_trigger s now token).1.github_last_fetch ≠ s.github_last_fetch) :
    now - s.github_last_fetch ≥ 300 ∧
    (maybe_trigger s now token).1.github_last_fetch = now ∧
    (trigger_now s cred).1.github_last_fetch = s.github_last_fetch := by
  by_cases hc : now - s.github_last_fetch ≥ 300 ∧ s.fetch_in_flight = false
  · refine ⟨hc.1, ?_, ?_⟩
    · unfold maybe_trigger
      rw [if_pos hc]
      cases token <;> rfl
    · cases cred <;> rfl
  · exfalso
    apply h
    unfold maybe_trigger
    rw [if_neg hc]

/-- Claim C2 witness: from last_trigger_time 0, a periodic trigger at time
300 changes the field, so the spacing bound and the manual-trigger clause
apply there. -/
theorem auto_spacing_manual_no_update_witness :
    (maybe_trigger ⟨0, false, .Unknown, []⟩ 300 (some "t")).1.github_last_fetch ≠ 0 ∧
    ((300 : Int) - 0 ≥ 300 ∧
     (maybe_trigger ⟨0, false, .Unknown, []⟩ 300 (some "t")).1.github_last_fetch = 300 ∧
     (trigger_now ⟨0, false, .Unknown, []⟩ none).1.github_last_fetch = 0) :=
  ⟨by decide, auto_spacing_manual_no_update ⟨0, false, .Unknown, []⟩ 300 (some "t") none
    (by decide)⟩

/-- Claim C2 counterexample: a manual trigger leaves last_trigger_time
unchanged (here 0), and once its outcome is consumed the periodic check
already fires at time 360 — not 300 seconds after the manual trigger,
which could have happened at time 350. -/
theorem manual_no_suppression_cex :
    (trigger_now ⟨0, false, .Unknown, []⟩ (some "t")).1.github_last_fetch = 0 ∧
    (maybe_trigger (consume_result (trigger_now ⟨0, false, .Unknown, []⟩ (some "t")).1
        { connected := true, prs := [] }) 360 (some "t")).2 = true := by
  constructor <;> decide

/-- Claim C7 (amended): a no-credential periodic trigger attempt whose
interval check passes starts no worker (and performs no network call — the
trigger reads no remote response), advances last_trigger_time to now, and
immediately sets the presenter-visible state to Disconnected with no
items, directly rather than through the mailbox; a no-credential manual
trigger does the same but leaves last_trigger_time unchanged. -/
theorem no_credential_trigger_behaviour (s : SchedulerState) (now : Int)
    (h1 : now - s.github_last_fetch ≥ 300) (h2 : s.fetch_in_flight = false) :
    maybe_trigger s now none
      = ({ s with github_last_fetch := now, github_status := .Disconnected,
                  github_prs := [] }, false) ∧
    trigger_now s none
      = ({ s with github_status := .Disconnected, github_prs := [] }, false) := by
  constructor
  · unfold maybe_trigger
    rw [if_pos ⟨h1, h2⟩]
  · rfl

/-- Claim C7 witness: a concrete due, idle state where the no-credential
periodic trigger advances the clock and shows Disconnected, and the manual
one shows Disconnected without touching the clock. -/
theorem no_credential_trigger_behaviour_witness :
    ((1000 : Int) - 0 ≥ 300 ∧
     (⟨0, false, .Unknown, [⟨"t", "u"⟩]⟩ : SchedulerState).fetch_in_flight = false) ∧
    (maybe_trigger ⟨0, false, .Unknown, [⟨"t", "u"⟩]⟩ 1000 none
      = (⟨1000, false, .Disconnected, []⟩, false) ∧
     trigger_now ⟨0, false, .Unknown, [⟨"t", "u"⟩]⟩ none
      = (⟨0, false, .Disconnected, []⟩, false)) := by
  have h := no_credential_trigger_behaviour ⟨0, false, .Unknown, [⟨"t", "u"⟩]⟩ 1000
    (by decide) rfl
  exact ⟨⟨by decide, rfl⟩, h.1.trans rfl, h.2.trans rfl⟩

/-- Claim C7 counterexample: the manual no-credential trigger does not
advance last_trigger_time to the time of the trigger — trigger_now never
reads the clock and leaves the field unchanged (here at 5). -/
theorem manual_no_credential_last_fetch_cex :
    ¬ (∀ (s : SchedulerState) (now : Int),
        (trigger_now s none).1.github_last_fetch = now) := by
  intro h
  exact absurd (h ⟨5, false, .Unknown, []⟩ 7) (by decide)

/-- Claim C9: last_trigger_time starts 360 seconds in the past, so at any
frame time not before startup the very first periodic check fires: with a
credential a worker starts immediately, and without one the disconnected
state is shown immediately. -/
theorem first_frame_triggers_immediately (startup now : Int) (cred : String)
    (h : startup ≤ now) :
    (maybe_trigger (initial_scheduler_state startup) now (some cred)).2 = true ∧
    maybe_trigger (initial_scheduler_state startup) now none
      = ({ github_last_fetch := now, fetch_in_flight := false,
           github_status := .Disconnected, github_prs := [] }, false) := by
  have hge : now - (initial_scheduler_state startup).github_last_fetch ≥ 300 := by
    simp only [initial_scheduler_state]
    omega
  constructor
  · unfold maybe_trigger
    rw [if_pos ⟨hge, rfl⟩]
  · unfold maybe_trigger
    rw [if_pos ⟨hge, rfl⟩]
    exact rfl

/-- Claim C9 witness: at startup time 1000, the first frame at time 1000
already starts a worker with a credential, and already shows Disconnected
without one. -/
theorem first_frame_triggers_immediately_witness :
    (1000 : Int) ≤ 1000 ∧
    (maybe_trigger (initial_scheduler_state 1000) 1000 (some "tok")).2 = true ∧
    maybe_trigger (initial_scheduler_state 1000) 1000 none
      = ({ github_last_fetch := 1000, fetch_in_flight := false,
           github_status := .Disconnected, github_prs := [] }, false) :=
  ⟨by decide, first_frame_triggers_immediately 1000 1000 "tok" (by decide)⟩

/-- Helper: the insertion sort under matchLE is the stable descending sort
of the matches: sorted, and filtering by any one updated_at key gives back
the input records with that key in their original order. -/
theorem sortMatches_stable (l : List (String × GithubPr)) :
    IsStableDescSortOf l (sortMatches l) := by
  constructor
  · exact List.sorted_insertionSort matchLE l
  · intro k
    have hperm : List.Perm (sortMatches l) l := List.perm_insertionSort matchLE l
    have hpf : List.Perm ((sortMatches l).filter (fun x => x.1 == k))
        (l.filter (fun x => x.1 == k)) := hperm.filter _
    have hpair : (l.filter (fun x => x.1 == k)).Pairwise matchLE := by
      apply List.pairwise_of_reflexive_of_forall_ne (fun a => matchLE_refl a)
      intro a ha b hb _
      have hak : a.1 = k := by simpa using (List.mem_filter.mp ha).2
      have hbk : b.1 = k := by simpa using (List.mem_filter.mp hb).2
      have hba : b.1 = a.1 := hbk.trans hak.symm
      unfold matchLE strLe
      rw [hba]
      exact strLeB_refl _
    have hsub : List.Sublist (l.filter (fun x => x.1 == k)) (sortMatches l) :=
      List.sublist_insertionSort hpair (List.filter_sublist l)
    have hidem : (l.filter (fun x => x.1 == k)).filter (fun x => x.1 == k)
        = l.filter (fun x => x.1 == k) :=
      List.filter_eq_self.mpr (fun a ha => (List.mem_filter.mp ha).2)
    have hsub2 : List.Sublist (l.filter (fun x => x.1 == k))
        ((sortMatches l).filter (fun x => x.1 == k)) := by
      have h2 := hsub.filter (fun x => x.1 == k)
      rwa [hidem] at h2
    exact (hsub2.eq_of_length hpf.length_eq.symm).symm

/-- Claim C6: when the identity stage yields login, the search succeeds
with zero items and the repository listing succeeds, the outcome is
connected with items the first 3 of the author-matching records of all
queried repositories, stably sorted descending by the updated_at string
(equal keys keep their encounter order across repositories). -/
theorem fallback_stable_sort_take3 (env : RemoteEnv) (login : String)
    (repos : List String)
    (hid : identityStage env.userResp = some login)
    (hsearch : searchStage env.searchResp = some [])
    (hrepos : reposStage env.reposResp = some repos) :
    spawn_github_fetch env
      = { connected := true,
          prs := ((sortMatches (mergedMatches login env.pullsResp repos)).map
                    Prod.snd).take 3 } ∧
    IsStableDescSortOf (mergedMatches login env.pullsResp repos)
      (sortMatches (mergedMatches login env.pullsResp repos)) := by
  refine ⟨?_, sortMatches_stable _⟩
  simp [spawn_github_fetch, fallbackStage, hid, hsearch, hrepos]

/-- Claim C6 witness: with repository octo/r1 contributing matches updated
2024-01-03 and 2024-01-01 and octo/r2 one updated 2024-01-02, the outcome
is R1a, then the R2 pull, then R1b — descending by updated_at string,
length 3. -/
theorem fallback_stable_sort_take3_witness :
    (identityStage envExample.userResp = some "me" ∧
     searchStage envExample.searchResp = some [] ∧
     reposStage envExample.reposResp = some ["octo/r1", "octo/r2"]) ∧
    IsStableDescSortOf (mergedMatches "me" envExample.pullsResp ["octo/r1", "octo/r2"])
      (sortMatches (mergedMatches "me" envExample.pullsResp ["octo/r1", "octo/r2"])) ∧
    (spawn_github_fetch envExample).prs
      = [{ title := "R1a", url := "u13" }, { title := "R2a", url := "u02" },
         { title := "R1b", url := "u01" }] := by
  refine ⟨⟨rfl, rfl, by decide⟩,
    (fallback_stable_sort_take3 envExample "me" ["octo/r1", "octo/r2"]
      rfl rfl (by decide)).2, ?_⟩
  decide

/-- Claim C3 (amended): after a successful identity stage, a search
response whose body is read but does not parse yields zero parsed items
and the cascade proceeds into the repository-listing fallback — exactly as
when the search succeeds with zero items — rather than terminating with
connected true and no items; the terminal connected-true-empty return is
reserved for a search transport failure, non-2xx status, or body-read
failure. -/
theorem malformed_search_body_enters_fallback (env : RemoteEnv) (login : String)
    (hid : identityStage env.userResp = some login)
    (hbody : env.searchResp = .success .malformed) :
    searchStage env.searchResp = some [] ∧
    spawn_github_fetch env = fallbackStage env login ∧
    spawn_github_fetch { env with searchResp := .failure }
      = { connected := true, prs := [] } := by
  have h1 : searchStage env.searchResp = some [] := by rw [hbody]; rfl
  refine ⟨h1, ?_, ?_⟩
  · simp [spawn_github_fetch, hid, h1]
  · simp [spawn_github_fetch, searchStage, hid]

/-- Claim C3 counterexample: with the identity stage succeeding and the
search body malformed, the cycle does not terminate with connected true
and empty items — the fallback runs and returns its matches. -/
theorem malformed_search_not_terminal_cex :
    identityStage envMalformedSearch.userResp = some "me" ∧
    envMalformedSearch.searchResp = HttpResult.success Body.malformed ∧
    spawn_github_fetch envMalformedSearch ≠ { connected := true, prs := [] } := by
  refine ⟨rfl, rfl, ?_⟩
  decide

/-- Claim C3 witness: a concrete environment with a malformed search body
in which the fallback outcome is exactly what the fallback stage computes,
and the same environment with a failed search terminates empty. -/
theorem malformed_search_body_enters_fallback_witness :
    identityStage envMalformedSearch.userResp = some "me" ∧
    (searchStage envMalformedSearch.searchResp = some [] ∧
     spawn_github_fetch envMalformedSearch = fallbackStage envMalformedSearch "me" ∧
     spawn_github_fetch { envMalformedSearch with searchResp := .failure }
       = { connected := true, prs := [] }) :=
  ⟨rfl, malformed_search_body_enters_fallback envMalformedSearch "me" rfl rfl⟩

/-- Helper: a failed per-repository pull query contributes no records. -/
theorem pullsForRepo_of_failed (login : String) (r : HttpResult)
    (h : repoQueryFailed r = true) : pullsForRepo login r = [] := by
  cases r with
  | failure => rfl
  | readError => rfl
  | success b =>
    unfold repoQueryFailed at h
    rw [Option.isNone_iff_eq_none] at h
    simp [pullsForRepo, h]

/-- Helper: the merged matches are unchanged when the repositories whose
pull query failed are removed from the cascade. -/
theorem mergedMatches_filter_failed (login : String)
    (pullsFn : String → HttpResult) (repos : List String) :
    mergedMatches login pullsFn repos
      = mergedMatches login pullsFn
          (repos.filter (fun q => ! repoQueryFailed (pullsFn q))) := by
  induction repos with
  | nil => rfl
  | cons r rs ih =>
    cases hq : repoQueryFailed (pullsFn r) with
    | true =>
      simp only [mergedMatches, List.flatMap_cons, List.filter_cons, hq,
        pullsForRepo_of_failed login _ hq, Bool.not_true, List.nil_append,
        Bool.false_eq_true, if_false]
      simpa [mergedMatches] using ih
    | false =>
      simp only [mergedMatches, List.flatMap_cons, List.filter_cons, hq,
        Bool.not_false, if_true]
      simp only [mergedMatches] at ih
      rw [ih]

/-- Claim C8: during the fallback a failing per-repository pull query
(transport, non-2xx status, or malformed pull list) contributes nothing
and is skipped: the merged matches equal those of the non-failing
repositories alone, so records of the other repositories survive, and the
fallback outcome is connected regardless. -/
theorem per_repo_failure_skipped (env : RemoteEnv) (login r : String)
    (repos : List String) (h : repoQueryFailed (env.pullsResp r) = true) :
    pullsForRepo login (env.pullsResp r) = [] ∧
    mergedMatches login env.pullsResp repos
      = mergedMatches login env.pullsResp
          (repos.filter (fun q => ! repoQueryFailed (env.pullsResp q))) ∧
    (fallbackStage env login).connected = true := by
  refine ⟨pullsForRepo_of_failed login _ h,
    mergedMatches_filter_failed login _ repos, ?_⟩
  rcases hr : reposStage env.reposResp with _ | repos2
  · simp [fallbackStage, hr]
  · simp [fallbackStage, hr]

/-- Claim C8 witness: with the pull query of octo/r2 failing, the cascade
still returns the two matching records of octo/r1, connected. -/
theorem per_repo_failure_skipped_witness :
    repoQueryFailed (envRepoFail.pullsResp "octo/r2") = true ∧
    (pullsForRepo "me" (envRepoFail.pullsResp "octo/r2") = [] ∧
     (fallbackStage envRepoFail "me").connected = true) ∧
    (spawn_github_fetch envRepoFail).prs
      = [{ title := "R1a", url := "u13" }, { title := "R1b", url := "u01" }] := by
  have h := per_repo_failure_skipped envRepoFail "me" "octo/r2"
    ["octo/r1", "octo/r2"] (by decide)
  refine ⟨by decide, ⟨h.1, h.2.2⟩, ?_⟩
  decide

/-- Claim C10: the two stages treat incomplete entries asymmetrically.  A
search item missing its title or html_url is dropped entirely — it does
not occupy one of the 3 kept slots — while a fallback pull entry whose
(defaulted) author equals login is kept even with title, html_url or
updated_at absent, each absent field replaced by the empty string. -/
theorem stage_asymmetry_missing_fields (item : Json) (items : List Json)
    (login : String) (pr : Json)
    (hdrop : (item.get "title").bind Json.asStr = none ∨
             (item.get "html_url").bind Json.asStr = none)
    (hauth : authorOf pr = login) :
    List.filterMap parseSearchItem (item :: items)
      = List.filterMap parseSearchItem items ∧
    (List.filterMap parseSearchItem (item :: items)).take 3
      = (List.filterMap parseSearchItem items).take 3 ∧
    processPull login pr
      = some (updatedOf pr, { title := titleOf pr, url := urlOf pr }) ∧
    (pr.get "title" = none → titleOf pr = "") ∧
    (pr.get "html_url" = none → urlOf pr = "") ∧
    (pr.get "updated_at" = none → updatedOf pr = "") := by
  have hnone : parseSearchItem item = none := by
    unfold parseSearchItem
    rcases hdrop with h | h
    · rw [h]
    · rcases ht : (item.get "title").bind Json.asStr with _ | t
      · rfl
      · rw [h]
  have hfm : List.filterMap parseSearchItem (item :: items)
      = List.filterMap parseSearchItem items := by
    simp [List.filterMap_cons, hnone]
  refine ⟨hfm, by rw [hfm], ?_, ?_, ?_, ?_⟩
  · unfold processPull
    rw [if_pos hauth]
  · intro h0
    unfold titleOf
    rw [h0]
    rfl
  · intro h0
    unfold urlOf
    rw [h0]
    rfl
  · intro h0
    unfold updatedOf
    rw [h0]
    rfl

/-- Claim C10 witness: a search item with a url but no title is dropped,
while a pull entry carrying only a matching author is kept as a record of
empty strings. -/
theorem stage_asymmetry_missing_fields_witness :
    ((itemNoTitle.get "title").bind Json.asStr = none ∨
     (itemNoTitle.get "html_url").bind Json.asStr = none) ∧
    authorOf prBare = "me" ∧
    List.filterMap parseSearchItem [itemNoTitle] = [] ∧
    processPull "me" prBare = some ("", { title := "", url := "" }) := by
  have h := stage_asymmetry_missing_fields itemNoTitle [] "me" prBare
    (Or.inl rfl) rfl
  refine ⟨Or.inl rfl, rfl, h.1, ?_⟩
  rw [h.2.2.1]
  decide
